import Mathlib

/-!
Verification development for `calculate_astronomical_events`
(src/calculator.py of Baba-Yagan/circadias).

The function delegates positional astronomy to the external `ephem`
library (PyEphem) and assembles a daily report from the library's
answers.  The library is modelled here as an oracle (`Ephem`): a record
of the rise/set queries the function can make and the sun altitude at a
given instant.  Everything the repository's own code does — the
try/except handling of the polar exceptions, the day/night length
arithmetic and formatting, the midpoint solar noon, the noon-anchored
dusk searches, the UV offsets, the midnight elevation truncation and the
final report assembly — is embedded faithfully, line by line.

Instants are rational numbers of minutes since 00:00 UTC of the
requested date (`ephem.Date` arithmetic is affine, so the epoch offset
cancels everywhere the code uses it).  Python `float` arithmetic is
idealised as exact rational arithmetic; `math.pi` is the exact rational
value of the IEEE-754 double closest to π.
-/

/-- Python `int(q)` on a float: truncation toward zero. -/
def pyTrunc (q : ℚ) : Int := if 0 ≤ q then ⌊q⌋ else ⌈q⌉

/-- Python `q % 1` on a float: the representative in `[0, 1)`. -/
def pyMod1 (q : ℚ) : ℚ := q - ⌊q⌋

/-- Two-digit zero padding of a natural number, as Python `f-string`
format `02d` renders a nonnegative integer. -/
def pad2 (n : Nat) : String := if n < 10 then "0" ++ toString n else toString n

/-- Python `02d` formatting of a possibly negative integer: a minus sign
followed by the digits (already at least two characters wide), or the
zero-padded digits. -/
def fmtInt02 (n : Int) : String :=
  if n < 0 then "-" ++ toString n.natAbs else pad2 n.toNat

/-- Day-length formatting of a fractional number of hours `h`, as on
lines 52 and 56 of calculator.py: the integer part via Python `int`,
then the minutes `int((h % 1) * 60)`, each through `02d`. -/
def fmtHours (h : ℚ) : String :=
  fmtInt02 (pyTrunc h) ++ ":" ++ fmtInt02 (pyTrunc (pyMod1 h * 60))

/-- Minute-of-day shown by `strftime` with format string percent-H
colon percent-M for a datetime lying `t` minutes after some midnight:
whole minutes, reduced modulo one day. -/
def hmOfInstant (t : ℚ) : Nat := ((⌊t⌋ : Int) % 1440).toNat

/-- The clock string `strftime` produces: zero-padded hour and minute. -/
def strftimeHM (t : ℚ) : String :=
  pad2 (hmOfInstant t / 60) ++ ":" ++ pad2 (hmOfInstant t % 60)

/-- The IEEE-754 double closest to π, the value of Python `math.pi`;
`math.degrees` divides by it. -/
def piFloat : ℚ := 884279719003555 / 281474976710656

/-- Python `math.degrees`: radians to degrees. -/
def degreesQ (x : ℚ) : ℚ := x * 180 / piFloat

/-- Outcome of an `ephem` rise/set query: the instant found (minutes
after 00:00 UTC of the date), or one of the two circumpolar exceptions
`ephem.AlwaysUpError` and `ephem.NeverUpError` — the only exceptions
these queries raise and the only ones calculator.py catches. -/
inductive RiseSetResult where
  | found (t : ℚ)
  | alwaysUp
  | neverUp
deriving DecidableEq, Repr

/-- Whether the outcome is one of the two polar exceptions. -/
def RiseSetResult.isPolar : RiseSetResult → Bool
  | .found _ => false
  | .alwaysUp => true
  | .neverUp => true

/-- The `ephem` library as an oracle for one (latitude, longitude,
date) triple: `nextRising angle start useCenter` models
`observer.next_rising(sun)` with `observer.horizon = angle` and
`observer.date` set `start` minutes after 00:00 UTC of the date
(`use_center` as flagged); likewise `nextSetting`.  `alt t` is
`sun.alt` (radians) with the observer dated `t` minutes after
midnight.  The time-zone offset never reaches the library. -/
structure Ephem where
  nextRising : ℚ → ℚ → Bool → RiseSetResult
  nextSetting : ℚ → ℚ → Bool → RiseSetResult
  alt : ℚ → ℚ

/-- Number of days in a month, as `datetime` accepts them. -/
def daysInMonth (y m : Nat) : Nat :=
  if m = 2 then (if (y % 4 = 0 ∧ y % 100 ≠ 0) ∨ y % 400 = 0 then 29 else 28)
  else if m = 4 ∨ m = 6 ∨ m = 9 ∨ m = 11 then 30 else 31

/-- Numeric value of a digit string. -/
def natOfDigits (l : List Char) : Nat :=
  l.foldl (fun a c => 10 * a + (c.toNat - 48)) 0

/-- Splitting a character list at every dash, with an accumulator for
the group being read. -/
def splitOnDash : List Char → List Char → List (List Char)
  | [], acc => [acc.reverse]
  | c :: rest, acc =>
    if c = '-' then acc.reverse :: splitOnDash rest []
    else splitOnDash rest (c :: acc)

/-- Modelled after `datetime.datetime.strptime(date_str, "%Y-%m-%d")`
(line 8 of calculator.py): three dash-separated digit groups, year of
at most four digits, month `1..12`, day valid for the month; anything
else raises `ValueError`. -/
def parseDate (s : String) : Option (Nat × Nat × Nat) :=
  match splitOnDash s.data [] with
  | [ys, ms, ds] =>
    if ys ≠ [] ∧ ys.length ≤ 4 ∧ ys.all Char.isDigit ∧
       ms ≠ [] ∧ ms.length ≤ 2 ∧ ms.all Char.isDigit ∧
       ds ≠ [] ∧ ds.length ≤ 2 ∧ ds.all Char.isDigit then
      let y := natOfDigits ys
      let m := natOfDigits ms
      let d := natOfDigits ds
      if 1 ≤ m ∧ m ≤ 12 ∧ 1 ≤ d ∧ d ≤ daysInMonth y m then some (y, m, d)
      else none
    else none
  | _ => none

/-- The inner report dictionary of calculator.py (lines 124-142); every
field is a string. -/
structure DayReport where
  astronomicalDawn : String
  nauticalDawn : String
  civilDawn : String
  sunrise : String
  uvaOn : String
  uvbOn : String
  solarNoon : String
  uvbOff : String
  uvaOff : String
  sunset : String
  civilDusk : String
  nauticalDusk : String
  astronomicalDusk : String
  daylength : String
  nightLength : String
  sleepDuration : String
  elevationAngle : String
deriving DecidableEq, Repr

/-- The top-level result dictionary (lines 121-145). -/
structure CalcResult where
  date : String
  data : List DayReport
  nextAvailable : List String
deriving DecidableEq, Repr

/-- The one exception `calculate_astronomical_events` can let escape:
the `ValueError` of `strptime` on a malformed date string. -/
inductive CalcError where
  | valueError
deriving DecidableEq, Repr

/-- Lines 24-31 of calculator.py: `sunrise = observer.next_rising(sun)`
then `sunset = observer.next_setting(sun)` from 00:00 UTC with horizon
0 and `use_center` unset; if either raises a circumpolar exception the
except clause sets BOTH variables to `None`. -/
def riseSetPair (e : Ephem) : Option (ℚ × ℚ) :=
  match e.nextRising 0 0 false with
  | .found r =>
    match e.nextSetting 0 0 false with
    | .found s => some (r, s)
    | _ => none
  | _ => none

/-- Line 37 of calculator.py: `"24:00" if sunrise is None else "00:00"`.
In the branch where this runs, `sunrise` and `sunset` were set to `None`
together by the except clause, so the argument is always `none` and the
`"00:00"` alternative is unreachable. -/
def dayLengthStrOf : Option ℚ → String
  | none => "24:00"
  | some _ => "00:00"

/-- Line 38 of calculator.py: `"00:00" if sunrise is None else "24:00"`. -/
def nightLengthStrOf : Option ℚ → String
  | none => "00:00"
  | some _ => "24:00"

/-- Lines 70-82 of calculator.py (dawn half of the twilight loop): the
observer date is reset to the start of the day (instant 0) and horizon
to the twilight angle, and `next_rising(sun, use_center=True)` is
formatted in local time, the circumpolar exceptions becoming "N/A". -/
def twilightDawn (tzo : ℚ) (e : Ephem) (angle : ℚ) : String :=
  match e.nextRising angle 0 true with
  | .found t => strftimeHM (t + 60 * tzo)
  | _ => "N/A"

/-- Lines 84-92 of calculator.py (dusk half of the twilight loop): the
observer date is moved to noon of the date (instant 720) before
`next_setting(sun, use_center=True)`, so the search restarts at midday. -/
def twilightDusk (tzo : ℚ) (e : Ephem) (angle : ℚ) : String :=
  match e.nextSetting angle 720 true with
  | .found t => strftimeHM (t + 60 * tzo)
  | _ => "N/A"

/-- Lines 113-118 of calculator.py: the observer date is reset to
midnight (instant 0), `sun.compute(observer)` is run, and
`int(math.degrees(sun.alt))` is rendered. -/
def elevationField (e : Ephem) : String :=
  toString (pyTrunc (degreesQ (e.alt 0)))

/-- Lines 24-142 of calculator.py after date parsing: the whole report
dictionary for one date, as a function of the time-zone offset and the
ephemeris answers. -/
def buildReport (tzo : ℚ) (e : Ephem) : DayReport :=
  match riseSetPair e with
  | none =>
    -- lines 34-40 and the "N/A" render paths of lines 96-111 and 128-134
    { astronomicalDawn := twilightDawn tzo e (-18)
      nauticalDawn := twilightDawn tzo e (-12)
      civilDawn := twilightDawn tzo e (-6)
      sunrise := "N/A"
      uvaOn := "N/A"
      uvbOn := "N/A"
      solarNoon := strftimeHM (720 + 60 * tzo)
      uvbOff := "N/A"
      uvaOff := "N/A"
      sunset := "N/A"
      civilDusk := twilightDusk tzo e (-6)
      nauticalDusk := twilightDusk tzo e (-12)
      astronomicalDusk := twilightDusk tzo e (-18)
      daylength := dayLengthStrOf none
      nightLength := nightLengthStrOf none
      sleepDuration := "7.0"
      elevationAngle := elevationField e }
  | some (r, s) =>
    -- lines 41-60: local times, day and night length, midpoint solar noon
    let sunriseLocal := r + 60 * tzo
    let sunsetLocal := s + 60 * tzo
    let dayLengthHours := (s - r) / 60
    { astronomicalDawn := twilightDawn tzo e (-18)
      nauticalDawn := twilightDawn tzo e (-12)
      civilDawn := twilightDawn tzo e (-6)
      sunrise := strftimeHM sunriseLocal
      uvaOn := strftimeHM (sunriseLocal + 68)
      uvbOn := strftimeHM (sunriseLocal + 196)
      solarNoon := strftimeHM ((r + s) / 2 + 60 * tzo)
      uvbOff := strftimeHM (sunsetLocal - 196)
      uvaOff := strftimeHM (sunsetLocal - 68)
      sunset := strftimeHM sunsetLocal
      civilDusk := twilightDusk tzo e (-6)
      nauticalDusk := twilightDusk tzo e (-12)
      astronomicalDusk := twilightDusk tzo e (-18)
      daylength := fmtHours dayLengthHours
      nightLength := fmtHours (24 - dayLengthHours)
      sleepDuration := "7.638"
      elevationAngle := elevationField e }

/-- The function `calculate_astronomical_events(lat, lon, date_str, tzo)`
of calculator.py, over the `ephem` oracle for the given location and
date.  The latitude and longitude are only ever converted to strings and
stored on the observer (lines 12-13) — the code never inspects or
validates them — so beyond selecting the oracle they do not influence
the computation. -/
def calculate_astronomical_events (lat lon : ℚ) (dateStr : String) (tzo : ℚ)
    (e : Ephem) : Except CalcError CalcResult :=
  match parseDate dateStr with
  | none => .error .valueError
  | some _ =>
    .ok { date := dateStr ++ "T00:00:00.000Z"
          data := [buildReport tzo e]
          nextAvailable := [] }

/-- Reading a report field as an HH:MM duration or clock value: exactly
five characters, two digit pairs separated by a colon, minutes below
sixty; the value in minutes. -/
def hmVal (s : String) : Option Nat :=
  match s.data with
  | [a, b, c, d, f] =>
    if a.isDigit ∧ b.isDigit ∧ c = ':' ∧ d.isDigit ∧ f.isDigit ∧
       10 * (d.toNat - 48) + (f.toNat - 48) < 60 then
      some (600 * (a.toNat - 48) + 60 * (b.toNat - 48) +
            10 * (d.toNat - 48) + (f.toNat - 48))
    else none
  | _ => none

/-! ## Elementary facts about the formatting primitives -/

theorem hmVal_pad2 : ∀ h : Nat, h < 25 → ∀ m : Nat, m < 60 →
    hmVal (pad2 h ++ ":" ++ pad2 m) = some (60 * h + m) := by decide

theorem pad2_length : ∀ n : Nat, n < 100 → (pad2 n).length = 2 := by decide

theorem hmOfInstant_lt (t : ℚ) : hmOfInstant t < 1440 := by
  have h1 : (0:Int) ≤ (⌊t⌋ : Int) % 1440 := Int.emod_nonneg _ (by norm_num)
  have h2 : (⌊t⌋ : Int) % 1440 < 1440 := Int.emod_lt_of_pos _ (by norm_num)
  unfold hmOfInstant
  omega

theorem hmVal_strftimeHM (t : ℚ) : hmVal (strftimeHM t) = some (hmOfInstant t) := by
  have hlt := hmOfInstant_lt t
  have h1 : hmOfInstant t / 60 < 25 := by omega
  have h2 : hmOfInstant t % 60 < 60 := Nat.mod_lt _ (by norm_num)
  have := hmVal_pad2 (hmOfInstant t / 60) h1 (hmOfInstant t % 60) h2
  rw [strftimeHM, this, Nat.div_add_mod]

theorem hmOfInstant_of_range {t : ℚ} (h0 : 0 ≤ ⌊t⌋) (h1 : ⌊t⌋ < 1440) :
    (hmOfInstant t : Int) = ⌊t⌋ := by
  unfold hmOfInstant
  rw [Int.emod_eq_of_lt h0 h1]
  omega

theorem strftimeHM_length (t : ℚ) : (strftimeHM t).length = 5 := by
  have hlt := hmOfInstant_lt t
  have h1 : (pad2 (hmOfInstant t / 60)).length = 2 := pad2_length _ (by omega)
  have h2 : (pad2 (hmOfInstant t % 60)).length = 2 :=
    pad2_length _ (Nat.lt_trans (Nat.mod_lt _ (by norm_num)) (by norm_num))
  simp [strftimeHM, String.length_append, h1, h2]
  decide

theorem strftimeHM_ne_NA (t : ℚ) : strftimeHM t ≠ "N/A" := by
  intro h
  have hl := strftimeHM_length t
  rw [h] at hl
  exact absurd hl (by decide)

/-! ## Shape lemmas for the embedded function -/

theorem riseSetPair_found {e : Ephem} {r s : ℚ}
    (hr : e.nextRising 0 0 false = .found r)
    (hs : e.nextSetting 0 0 false = .found s) :
    riseSetPair e = some (r, s) := by
  unfold riseSetPair
  rw [hr, hs]

theorem calc_ok {lat lon tzo : ℚ} {dateStr : String} {e : Ephem}
    {ymd : Nat × Nat × Nat} (h : parseDate dateStr = some ymd) :
    calculate_astronomical_events lat lon dateStr tzo e =
      .ok { date := dateStr ++ "T00:00:00.000Z"
            data := [buildReport tzo e]
            nextAvailable := [] } := by
  unfold calculate_astronomical_events
  rw [h]

theorem calc_data {lat lon tzo : ℚ} {dateStr : String} {e : Ephem}
    {res : CalcResult}
    (h : calculate_astronomical_events lat lon dateStr tzo e = .ok res) :
    res.data = [buildReport tzo e] := by
  unfold calculate_astronomical_events at h
  cases hp : parseDate dateStr with
  | none => rw [hp] at h; exact absurd h (by simp)
  | some ymd =>
    rw [hp] at h
    cases h
    rfl

theorem mem_calc_data {lat lon tzo : ℚ} {dateStr : String} {e : Ephem}
    {res : CalcResult} {d : DayReport}
    (h : calculate_astronomical_events lat lon dateStr tzo e = .ok res)
    (hd : d ∈ res.data) : d = buildReport tzo e := by
  rw [calc_data h] at hd
  simpa using hd

theorem buildReport_polar {e : Ephem} (tzo : ℚ) (h : riseSetPair e = none) :
    buildReport tzo e =
      { astronomicalDawn := twilightDawn tzo e (-18)
        nauticalDawn := twilightDawn tzo e (-12)
        civilDawn := twilightDawn tzo e (-6)
        sunrise := "N/A"
        uvaOn := "N/A"
        uvbOn := "N/A"
        solarNoon := strftimeHM (720 + 60 * tzo)
        uvbOff := "N/A"
        uvaOff := "N/A"
        sunset := "N/A"
        civilDusk := twilightDusk tzo e (-6)
        nauticalDusk := twilightDusk tzo e (-12)
        astronomicalDusk := twilightDusk tzo e (-18)
        daylength := "24:00"
        nightLength := "00:00"
        sleepDuration := "7.0"
        elevationAngle := elevationField e } := by
  unfold buildReport
  rw [h]
  rfl

theorem buildReport_found {e : Ephem} (tzo : ℚ) {r s : ℚ}
    (hr : e.nextRising 0 0 false = .found r)
    (hs : e.nextSetting 0 0 false = .found s) :
    buildReport tzo e =
      { astronomicalDawn := twilightDawn tzo e (-18)
        nauticalDawn := twilightDawn tzo e (-12)
        civilDawn := twilightDawn tzo e (-6)
        sunrise := strftimeHM (r + 60 * tzo)
        uvaOn := strftimeHM (r + 60 * tzo + 68)
        uvbOn := strftimeHM (r + 60 * tzo + 196)
        solarNoon := strftimeHM ((r + s) / 2 + 60 * tzo)
        uvbOff := strftimeHM (s + 60 * tzo - 196)
        uvaOff := strftimeHM (s + 60 * tzo - 68)
        sunset := strftimeHM (s + 60 * tzo)
        civilDusk := twilightDusk tzo e (-6)
        nauticalDusk := twilightDusk tzo e (-12)
        astronomicalDusk := twilightDusk tzo e (-18)
        daylength := fmtHours ((s - r) / 60)
        nightLength := fmtHours (24 - (s - r) / 60)
        sleepDuration := "7.638"
        elevationAngle := elevationField e } := by
  unfold buildReport
  rw [riseSetPair_found hr hs]

/-! ## Arithmetic of the day-length rendering -/

theorem pyTrunc_of_nonneg {q : ℚ} (h : 0 ≤ q) : pyTrunc q = ⌊q⌋ := if_pos h

theorem fmtInt02_of_nonneg {n : Int} (h : 0 ≤ n) : fmtInt02 n = pad2 n.toNat := by
  unfold fmtInt02
  rw [if_neg (by omega)]

theorem pyMod1_nonneg (q : ℚ) : 0 ≤ pyMod1 q :=
  sub_nonneg.mpr (Int.floor_le q)

theorem pyMod1_lt_one (q : ℚ) : pyMod1 q < 1 := by
  have := Int.lt_floor_add_one q
  unfold pyMod1
  linarith

theorem minutes_floor_nonneg (q : ℚ) : 0 ≤ ⌊pyMod1 q * 60⌋ :=
  Int.floor_nonneg.mpr (mul_nonneg (pyMod1_nonneg q) (by norm_num))

theorem minutes_floor_lt (q : ℚ) : ⌊pyMod1 q * 60⌋ < 60 := by
  have h := pyMod1_lt_one q
  have : pyMod1 q * 60 < 60 := by linarith
  exact Int.floor_lt.mpr (by exact_mod_cast this)

theorem floor_hours_minutes (x : ℚ) :
    60 * ⌊x⌋ + ⌊pyMod1 x * 60⌋ = ⌊x * 60⌋ := by
  have h : pyMod1 x * 60 = x * 60 - ((60 * ⌊x⌋ : Int) : ℚ) := by
    unfold pyMod1
    push_cast
    ring
  rw [h, Int.floor_sub_int]
  ring

theorem hmVal_fmtHours {x : ℚ} (h0 : 0 ≤ x) (h1 : x ≤ 24) :
    hmVal (fmtHours x) = some (⌊x * 60⌋.toNat) := by
  have hfl0 : (0:Int) ≤ ⌊x⌋ := Int.floor_nonneg.mpr h0
  have hfl1 : ⌊x⌋ ≤ 24 := by
    have : (⌊x⌋ : ℚ) ≤ 24 := le_trans (Int.floor_le x) h1
    exact_mod_cast this
  have hm0 := minutes_floor_nonneg x
  have hm1 := minutes_floor_lt x
  have hhours : ⌊x⌋.toNat < 25 := by omega
  have hmins : ⌊pyMod1 x * 60⌋.toNat < 60 := by omega
  have hfmt : fmtHours x = pad2 ⌊x⌋.toNat ++ ":" ++ pad2 ⌊pyMod1 x * 60⌋.toNat := by
    unfold fmtHours
    rw [pyTrunc_of_nonneg h0,
        pyTrunc_of_nonneg (mul_nonneg (pyMod1_nonneg x) (by norm_num)),
        fmtInt02_of_nonneg hfl0, fmtInt02_of_nonneg hm0]
  rw [hfmt, hmVal_pad2 _ hhours _ hmins]
  congr 1
  have := floor_hours_minutes x
  omega

theorem riseSetPair_some_inv {e : Ephem} {r s : ℚ}
    (h : riseSetPair e = some (r, s)) :
    e.nextRising 0 0 false = .found r ∧ e.nextSetting 0 0 false = .found s := by
  unfold riseSetPair at h
  cases h1 : e.nextRising 0 0 false <;> rw [h1] at h
  case found r0 =>
    cases h2 : e.nextSetting 0 0 false <;> rw [h2] at h
    case found s0 =>
      simp only [Option.some.injEq, Prod.mk.injEq] at h
      exact ⟨by rw [h.1], by rw [h.2]⟩
    case alwaysUp => simp at h
    case neverUp => simp at h
  case alwaysUp => simp at h
  case neverUp => simp at h

theorem floor_complement (y : ℚ) : ⌊(1440:ℚ) - y⌋ = 1440 - ⌈y⌉ := by
  rw [show (1440:ℚ) - y = -(y - ((1440:Int) : ℚ)) by push_cast; ring,
      Int.floor_neg, Int.ceil_sub_int]
  ring

/-- Summing the two rendered lengths: for a day length of `y` minutes
with `0 ≤ y ≤ 1440`, the daylength and nightLength strings both read as
HH:MM durations and the values add up to 24 hours, up to the one minute
both truncations can lose. -/
theorem fmtHours_sum {y : ℚ} (h0 : 0 ≤ y) (h1 : y ≤ 1440) :
    ∃ a b : Nat, hmVal (fmtHours (y / 60)) = some a ∧
      hmVal (fmtHours (24 - y / 60)) = some b ∧
      1439 ≤ a + b ∧ a + b ≤ 1441 := by
  have hx0 : (0:ℚ) ≤ y / 60 := by positivity
  have hx1 : y / 60 ≤ 24 := by linarith
  have hy0 : (0:ℚ) ≤ 24 - y / 60 := by linarith
  have hy1 : 24 - y / 60 ≤ 24 := by linarith
  have e1 : y / 60 * 60 = y := by field_simp
  have e2 : (24 - y / 60) * 60 = 1440 - y := by field_simp; ring
  refine ⟨⌊y⌋.toNat, (1440 - ⌈y⌉).toNat, ?_, ?_, ?_, ?_⟩
  · rw [hmVal_fmtHours hx0 hx1, e1]
  · rw [hmVal_fmtHours hy0 hy1, e2, floor_complement]
  all_goals
    have hf0 : (0:Int) ≤ ⌊y⌋ := Int.floor_nonneg.mpr h0
    have hc1 : ⌈y⌉ ≤ 1440 := Int.ceil_le.mpr (by exact_mod_cast h1)
    have hfc : ⌊y⌋ ≤ ⌈y⌉ := Int.floor_le_ceil y
    have hcf : ⌈y⌉ ≤ ⌊y⌋ + 1 := Int.ceil_le_floor_add_one y
    omega

/-! ## Concrete ephemeris oracles used in evaluations -/

/-- Oracle for a polar-night day (for instance latitude 78 on
2025-12-21): the sun never reaches any of the queried horizons, so every
query raises `NeverUpError`; the midnight altitude is about −0.31 rad. -/
def polarNightE : Ephem :=
  { nextRising := fun _ _ _ => .neverUp
    nextSetting := fun _ _ _ => .neverUp
    alt := fun _ => -31/100 }

/-- Oracle for a polar-day day (for instance latitude 78 on
2025-06-21): every query raises `AlwaysUpError`; the midnight altitude
is about 0.2 rad. -/
def polarDayE : Ephem :=
  { nextRising := fun _ _ _ => .alwaysUp
    nextSetting := fun _ _ _ => .alwaysUp
    alt := fun _ => 1/5 }

/-- Oracle with the rise/set pattern of the spec's regression fixture
(latitude 37.9838096, longitude 23.7275388, 2025-04-14): sunrise 03:53
UTC (minute 233), sunset 16:59 UTC (minute 1019), the three dawns
before sunrise in threshold order and the three dusks after sunset. -/
def athensE : Ephem :=
  { nextRising := fun angle _ _ =>
      if angle = 0 then .found 233
      else if angle = -6 then .found 207
      else if angle = -12 then .found 176
      else .found 141
    nextSetting := fun angle _ _ =>
      if angle = 0 then .found 1019
      else if angle = -6 then .found 1045
      else if angle = -12 then .found 1076
      else .found 1111
    alt := fun _ => -53/100 }

/-- Oracle matching a location near the antimeridian (for instance
longitude 180 at the equator) where the sun is above the horizon at
00:00 UTC of the date: the next setting, minute 330 (05:30 UTC),
precedes the next rising, minute 1050 (17:30 UTC), so the day length
the code computes is negative. -/
def antimeridianE : Ephem :=
  { nextRising := fun _ _ u => if u then .found 1040 else .found 1050
    nextSetting := fun _ _ u => if u then .found 740 else .found 330
    alt := fun _ => 1/2 }

theorem pyTrunc_intCast (n : Int) : pyTrunc ((n : ℚ)) = n := by
  unfold pyTrunc
  split <;> simp

theorem pyMod1_intCast (n : Int) : pyMod1 ((n : ℚ)) = 0 := by
  unfold pyMod1
  simp

/-- Day-length formatting of an exact whole number of hours. -/
theorem fmtHours_intCast (n : Int) :
    fmtHours ((n : ℚ)) = fmtInt02 n ++ ":" ++ "00" := by
  unfold fmtHours
  rw [pyTrunc_intCast, pyMod1_intCast, zero_mul,
      show ((0:ℚ)) = ((0 : Int) : ℚ) by norm_num, pyTrunc_intCast]
  rfl

/-! ## Claim C1 -/

/-- C1: evaluation of the code on the two polar cases.  On a polar-day
oracle (sun never sets) calculate_astronomical_events reports daylength
"24:00" and nightLength "00:00" as the claim states — but on a
polar-night oracle (sun never rises) it reports the very same pair,
not the claimed "00:00"/"24:00", because the except clause of lines
28-31 sets sunrise and sunset to None together and so the `else "00:00"`
alternative of line 37 can never be selected. -/
theorem polar_daylength_value :
    (calculate_astronomical_events 78 0 "2025-12-21" 0 polarNightE).map
        (fun c => c.data.map fun d => (d.daylength, d.nightLength)) =
      .ok [("24:00", "00:00")] ∧
    (calculate_astronomical_events 78 0 "2025-06-21" 0 polarDayE).map
        (fun c => c.data.map fun d => (d.daylength, d.nightLength)) =
      .ok [("24:00", "00:00")] := by
  constructor <;> rfl

/-! ## Claim C2 -/

/-- Claim C2 as stated: out-of-range latitude or longitude makes the
call report an error instead of producing a report. -/
def C2_claim : Prop :=
  ∀ (lat lon tzo : ℚ) (dateStr : String) (e : Ephem),
    (lat < -90 ∨ 90 < lat ∨ lon < -180 ∨ 180 < lon) →
    ∃ err, calculate_astronomical_events lat lon dateStr tzo e = .error err

/-- C2 counterexample: at latitude 100 (out of range) with a well-formed
date the function still returns a report — lines 12-13 only convert the
coordinates to strings, no range check exists anywhere in the code. -/
theorem range_validation_counterexample : ¬ C2_claim := by
  intro h
  obtain ⟨err, herr⟩ := h 100 0 0 "2025-04-14" athensE (Or.inr (Or.inl (by norm_num)))
  rw [@calc_ok 100 0 0 "2025-04-14" athensE (2025, 4, 14) (by decide)] at herr
  cases herr

/-- C2 (amended): calculate_astronomical_events performs no
latitude/longitude range validation; a call with out-of-range
coordinates and a well-formed date still produces a report, and only a
malformed date string is reported to the caller (as the ValueError of
strptime). -/
theorem no_range_validation (lat lon tzo : ℚ) (dateStr : String) (e : Ephem)
    (ymd : Nat × Nat × Nat) (hdate : parseDate dateStr = some ymd)
    (hrange : lat < -90 ∨ 90 < lat ∨ lon < -180 ∨ 180 < lon) :
    ∃ res, calculate_astronomical_events lat lon dateStr tzo e = .ok res :=
  ⟨_, calc_ok hdate⟩

/-- C2 witness: the amended statement applied at latitude 100,
longitude 200, date 2025-04-14. -/
theorem no_range_validation_witness :
    ∃ res, calculate_astronomical_events 100 200 "2025-04-14" 3 athensE = .ok res :=
  no_range_validation 100 200 3 "2025-04-14" athensE (2025, 4, 14) (by decide)
    (Or.inr (Or.inl (by norm_num)))

/-! ## Claim C3 -/

/-- Claim C3 as stated: for all inputs, the daylength and nightLength
fields, read as HH:MM durations, sum to 24:00 within one minute. -/
def C3_claim : Prop :=
  ∀ (lat lon tzo : ℚ) (dateStr : String) (e : Ephem) (res : CalcResult),
    calculate_astronomical_events lat lon dateStr tzo e = .ok res →
    ∀ d ∈ res.data, ∃ a b : Nat,
      hmVal d.daylength = some a ∧ hmVal d.nightLength = some b ∧
      1439 ≤ a + b ∧ a + b ≤ 1441

/-- C3 counterexample: on the antimeridian oracle (next setting before
next rising, as happens whenever the sun is up at 00:00 UTC) the day
length is −12 hours and the daylength field is rendered "-12:00",
which does not read as an HH:MM duration at all. -/
theorem length_sum_counterexample : ¬ C3_claim := by
  intro h
  obtain ⟨a, b, ha, hb, h1, h2⟩ :=
    h 0 180 0 "2025-04-14" antimeridianE _
      (@calc_ok 0 180 0 "2025-04-14" antimeridianE (2025, 4, 14) (by decide))
      (buildReport 0 antimeridianE) (by simp)
  have hfield : (buildReport 0 antimeridianE).daylength = "-12" ++ ":" ++ "00" := by
    rw [buildReport_found 0
        (show antimeridianE.nextRising 0 0 false = .found 1050 from rfl)
        (show antimeridianE.nextSetting 0 0 false = .found 330 from rfl)]
    show fmtHours ((330 - 1050) / 60) = _
    rw [show ((330 : ℚ) - 1050) / 60 = ((-12 : Int) : ℚ) by norm_num, fmtHours_intCast]
    rfl
  rw [hfield] at ha
  have hval : hmVal ("-12" ++ ":" ++ "00") = none := by decide
  rw [hval] at ha
  cases ha

/-- C3 (amended): daylength and nightLength read as HH:MM durations
and sum to 24:00 within one minute whenever either the 0-degree pair is
not observable (then they are exactly "24:00" and "00:00"), or it is
observable with the next setting no earlier than the next rising and at
most 24 hours after it; when the next setting precedes the next rising
(sun above the horizon at 00:00 UTC, for instance near the
antimeridian) the daylength field has a negative hour part and is not
an HH:MM duration. -/
theorem length_sum_amended (lat lon tzo : ℚ) (dateStr : String) (e : Ephem)
    (res : CalcResult)
    (hres : calculate_astronomical_events lat lon dateStr tzo e = .ok res)
    (hord : ∀ r s : ℚ, e.nextRising 0 0 false = .found r →
      e.nextSetting 0 0 false = .found s → r ≤ s ∧ s ≤ r + 1440) :
    ∀ d ∈ res.data, ∃ a b : Nat,
      hmVal d.daylength = some a ∧ hmVal d.nightLength = some b ∧
      1439 ≤ a + b ∧ a + b ≤ 1441 := by
  intro d hd
  rw [mem_calc_data hres hd]
  cases hrs : riseSetPair e with
  | none =>
    rw [buildReport_polar tzo hrs]
    refine ⟨1440, 0, ?_, ?_, by omega, by omega⟩
    · show hmVal "24:00" = some 1440
      decide
    · show hmVal "00:00" = some 0
      decide
  | some p =>
    obtain ⟨r, s⟩ := p
    obtain ⟨hr, hs⟩ := riseSetPair_some_inv hrs
    obtain ⟨hord1, hord2⟩ := hord r s hr hs
    rw [buildReport_found tzo hr hs]
    have h0 : (0:ℚ) ≤ s - r := by linarith
    have h1 : s - r ≤ 1440 := by linarith
    have := fmtHours_sum h0 h1
    simpa using this

/-! ## Claim C4 -/

theorem hmOfInstant_intCast (n : Int) : hmOfInstant ((n : ℚ)) = (n % 1440).toNat := by
  unfold hmOfInstant
  rw [Int.floor_intCast]

theorem hmVal_strftimeHM_ofInt {t : ℚ} {n : Int} (ht : t = ((n : ℚ))) :
    hmVal (strftimeHM t) = some ((n % 1440).toNat) := by
  rw [ht, hmVal_strftimeHM, hmOfInstant_intCast]

theorem hmOfInstant_mono {a b : ℚ} (hab : a ≤ b) (h0 : 0 ≤ ⌊a⌋)
    (h1 : ⌊b⌋ < 1440) : hmOfInstant a ≤ hmOfInstant b := by
  have hfl : ⌊a⌋ ≤ ⌊b⌋ := Int.floor_le_floor hab
  have ha := hmOfInstant_of_range h0 (lt_of_le_of_lt hfl h1)
  have hb := hmOfInstant_of_range (le_trans h0 hfl) h1
  omega

/-- Claim C4 as stated: whenever all eight threshold events are
observable, the reported clock values are ordered
astronomical dawn ≤ nautical dawn ≤ civil dawn ≤ sunrise ≤ solar noon
≤ sunset ≤ civil dusk ≤ nautical dusk ≤ astronomical dusk. -/
def C4_claim : Prop :=
  ∀ (lat lon tzo : ℚ) (dateStr : String) (e : Ephem) (res : CalcResult),
    calculate_astronomical_events lat lon dateStr tzo e = .ok res →
    ∀ d ∈ res.data,
      d.astronomicalDawn ≠ "N/A" → d.nauticalDawn ≠ "N/A" → d.civilDawn ≠ "N/A" →
      d.sunrise ≠ "N/A" → d.sunset ≠ "N/A" → d.civilDusk ≠ "N/A" →
      d.nauticalDusk ≠ "N/A" → d.astronomicalDusk ≠ "N/A" →
      ∀ a1 a2 a3 a4 a5 a6 a7 a8 a9 : Nat,
        hmVal d.astronomicalDawn = some a1 → hmVal d.nauticalDawn = some a2 →
        hmVal d.civilDawn = some a3 → hmVal d.sunrise = some a4 →
        hmVal d.solarNoon = some a5 → hmVal d.sunset = some a6 →
        hmVal d.civilDusk = some a7 → hmVal d.nauticalDusk = some a8 →
        hmVal d.astronomicalDusk = some a9 →
        a1 ≤ a2 ∧ a2 ≤ a3 ∧ a3 ≤ a4 ∧ a4 ≤ a5 ∧ a5 ≤ a6 ∧ a6 ≤ a7 ∧
        a7 ≤ a8 ∧ a8 ≤ a9

/-- C4 counterexample: on the fixture oracle with tzOffset 12 every
event is observable and the underlying instants are perfectly ordered,
but sunset falls past local midnight, so its clock string wraps around
("04:59") and the reported solar noon value 22:26 exceeds the reported
sunset value 04:59. -/
theorem ordering_counterexample : ¬ C4_claim := by
  intro h
  have hb := buildReport_found 12
    (show athensE.nextRising 0 0 false = .found 233 from rfl)
    (show athensE.nextSetting 0 0 false = .found 1019 from rfl)
  have ed1 : (buildReport 12 athensE).astronomicalDawn = strftimeHM (141 + 60 * 12) := by
    rw [hb]
    rfl
  have ed2 : (buildReport 12 athensE).nauticalDawn = strftimeHM (176 + 60 * 12) := by
    rw [hb]
    rfl
  have ed3 : (buildReport 12 athensE).civilDawn = strftimeHM (207 + 60 * 12) := by
    rw [hb]
    rfl
  have ed4 : (buildReport 12 athensE).sunrise = strftimeHM (233 + 60 * 12) := by
    rw [hb]
  have ed5 : (buildReport 12 athensE).solarNoon =
      strftimeHM ((233 + 1019) / 2 + 60 * 12) := by
    rw [hb]
  have ed6 : (buildReport 12 athensE).sunset = strftimeHM (1019 + 60 * 12) := by
    rw [hb]
  have ed7 : (buildReport 12 athensE).civilDusk = strftimeHM (1045 + 60 * 12) := by
    rw [hb]
    rfl
  have ed8 : (buildReport 12 athensE).nauticalDusk = strftimeHM (1076 + 60 * 12) := by
    rw [hb]
    rfl
  have ed9 : (buildReport 12 athensE).astronomicalDusk = strftimeHM (1111 + 60 * 12) := by
    rw [hb]
    rfl
  have v1 : hmVal (buildReport 12 athensE).astronomicalDawn = some 861 := by
    rw [ed1]
    exact (hmVal_strftimeHM_ofInt
      (show (141 : ℚ) + 60 * 12 = ((861 : Int) : ℚ) by norm_num)).trans (by decide)
  have v2 : hmVal (buildReport 12 athensE).nauticalDawn = some 896 := by
    rw [ed2]
    exact (hmVal_strftimeHM_ofInt
      (show (176 : ℚ) + 60 * 12 = ((896 : Int) : ℚ) by norm_num)).trans (by decide)
  have v3 : hmVal (buildReport 12 athensE).civilDawn = some 927 := by
    rw [ed3]
    exact (hmVal_strftimeHM_ofInt
      (show (207 : ℚ) + 60 * 12 = ((927 : Int) : ℚ) by norm_num)).trans (by decide)
  have v4 : hmVal (buildReport 12 athensE).sunrise = some 953 := by
    rw [ed4]
    exact (hmVal_strftimeHM_ofInt
      (show (233 : ℚ) + 60 * 12 = ((953 : Int) : ℚ) by norm_num)).trans (by decide)
  have v5 : hmVal (buildReport 12 athensE).solarNoon = some 1346 := by
    rw [ed5]
    exact (hmVal_strftimeHM_ofInt
      (show ((233 : ℚ) + 1019) / 2 + 60 * 12 = ((1346 : Int) : ℚ) by norm_num)).trans
      (by decide)
  have v6 : hmVal (buildReport 12 athensE).sunset = some 299 := by
    rw [ed6]
    exact (hmVal_strftimeHM_ofInt
      (show (1019 : ℚ) + 60 * 12 = ((1739 : Int) : ℚ) by norm_num)).trans (by decide)
  have v7 : hmVal (buildReport 12 athensE).civilDusk = some 325 := by
    rw [ed7]
    exact (hmVal_strftimeHM_ofInt
      (show (1045 : ℚ) + 60 * 12 = ((1765 : Int) : ℚ) by norm_num)).trans (by decide)
  have v8 : hmVal (buildReport 12 athensE).nauticalDusk = some 356 := by
    rw [ed8]
    exact (hmVal_strftimeHM_ofInt
      (show (1076 : ℚ) + 60 * 12 = ((1796 : Int) : ℚ) by norm_num)).trans (by decide)
  have v9 : hmVal (buildReport 12 athensE).astronomicalDusk = some 391 := by
    rw [ed9]
    exact (hmVal_strftimeHM_ofInt
      (show (1111 : ℚ) + 60 * 12 = ((1831 : Int) : ℚ) by norm_num)).trans (by decide)
  obtain ⟨c1, c2, c3, c4, c5, c6, c7, c8⟩ :=
    h 37.9838096 23.7275388 12 "2025-04-14" athensE _
      (@calc_ok 37.9838096 23.7275388 12 "2025-04-14" athensE (2025, 4, 14) (by decide))
      (buildReport 12 athensE) (by simp)
      (by rw [ed1]; exact strftimeHM_ne_NA _) (by rw [ed2]; exact strftimeHM_ne_NA _)
      (by rw [ed3]; exact strftimeHM_ne_NA _) (by rw [ed4]; exact strftimeHM_ne_NA _)
      (by rw [ed6]; exact strftimeHM_ne_NA _) (by rw [ed7]; exact strftimeHM_ne_NA _)
      (by rw [ed8]; exact strftimeHM_ne_NA _) (by rw [ed9]; exact strftimeHM_ne_NA _)
      861 896 927 953 1346 299 325 356 391
      v1 v2 v3 v4 v5 v6 v7 v8 v9
  exact absurd c5 (by norm_num)

/-- C4 (amended): whenever all eight threshold events are observable,
the ordering astronomical dawn ≤ nautical dawn ≤ civil dawn ≤ sunrise ≤
solar noon ≤ sunset ≤ civil dusk ≤ nautical dusk ≤ astronomical dusk
holds for the reported clock values provided the underlying instants
returned by the ephemeris are so ordered and all the local times fall
inside one local day (no wrap past local midnight); with a wrap the
displayed HH:MM values can be out of order even though the instants are
ordered. -/
theorem ordering_amended (lat lon tzo : ℚ) (dateStr : String) (e : Ephem)
    (res : CalcResult) (d : DayReport) (t1 t2 t3 t4 t5 t6 t7 t8 : ℚ)
    (hr1 : e.nextRising (-18) 0 true = .found t1)
    (hr2 : e.nextRising (-12) 0 true = .found t2)
    (hr3 : e.nextRising (-6) 0 true = .found t3)
    (hr4 : e.nextRising 0 0 false = .found t4)
    (hs5 : e.nextSetting 0 0 false = .found t5)
    (hs6 : e.nextSetting (-6) 720 true = .found t6)
    (hs7 : e.nextSetting (-12) 720 true = .found t7)
    (hs8 : e.nextSetting (-18) 720 true = .found t8)
    (hres : calculate_astronomical_events lat lon dateStr tzo e = .ok res)
    (hd : d ∈ res.data)
    (h12 : t1 ≤ t2) (h23 : t2 ≤ t3) (h34 : t3 ≤ t4) (h45 : t4 ≤ t5)
    (h56 : t5 ≤ t6) (h67 : t6 ≤ t7) (h78 : t7 ≤ t8)
    (hlo : 0 ≤ ⌊t1 + 60 * tzo⌋) (hhi : ⌊t8 + 60 * tzo⌋ < 1440) :
    hmVal d.astronomicalDawn = some (hmOfInstant (t1 + 60 * tzo)) ∧
    hmVal d.nauticalDawn = some (hmOfInstant (t2 + 60 * tzo)) ∧
    hmVal d.civilDawn = some (hmOfInstant (t3 + 60 * tzo)) ∧
    hmVal d.sunrise = some (hmOfInstant (t4 + 60 * tzo)) ∧
    hmVal d.solarNoon = some (hmOfInstant ((t4 + t5) / 2 + 60 * tzo)) ∧
    hmVal d.sunset = some (hmOfInstant (t5 + 60 * tzo)) ∧
    hmVal d.civilDusk = some (hmOfInstant (t6 + 60 * tzo)) ∧
    hmVal d.nauticalDusk = some (hmOfInstant (t7 + 60 * tzo)) ∧
    hmVal d.astronomicalDusk = some (hmOfInstant (t8 + 60 * tzo)) ∧
    hmOfInstant (t1 + 60 * tzo) ≤ hmOfInstant (t2 + 60 * tzo) ∧
    hmOfInstant (t2 + 60 * tzo) ≤ hmOfInstant (t3 + 60 * tzo) ∧
    hmOfInstant (t3 + 60 * tzo) ≤ hmOfInstant (t4 + 60 * tzo) ∧
    hmOfInstant (t4 + 60 * tzo) ≤ hmOfInstant ((t4 + t5) / 2 + 60 * tzo) ∧
    hmOfInstant ((t4 + t5) / 2 + 60 * tzo) ≤ hmOfInstant (t5 + 60 * tzo) ∧
    hmOfInstant (t5 + 60 * tzo) ≤ hmOfInstant (t6 + 60 * tzo) ∧
    hmOfInstant (t6 + 60 * tzo) ≤ hmOfInstant (t7 + 60 * tzo) ∧
    hmOfInstant (t7 + 60 * tzo) ≤ hmOfInstant (t8 + 60 * tzo) := by
  have hd2 : d = buildReport tzo e := mem_calc_data hres hd
  have hb := buildReport_found tzo hr4 hs5
  have L : ∀ u v : ℚ, t1 + 60 * tzo ≤ u → u ≤ v → v ≤ t8 + 60 * tzo →
      hmOfInstant u ≤ hmOfInstant v := by
    intro u v hu huv hv
    exact hmOfInstant_mono huv (le_trans hlo (Int.floor_le_floor hu))
      (lt_of_le_of_lt (Int.floor_le_floor hv) hhi)
  refine ⟨?_, ?_, ?_, ?_, ?_, ?_, ?_, ?_, ?_,
    L _ _ (by linarith) (by linarith) (by linarith),
    L _ _ (by linarith) (by linarith) (by linarith),
    L _ _ (by linarith) (by linarith) (by linarith),
    L _ _ (by linarith) (by linarith) (by linarith),
    L _ _ (by linarith) (by linarith) (by linarith),
    L _ _ (by linarith) (by linarith) (by linarith),
    L _ _ (by linarith) (by linarith) (by linarith),
    L _ _ (by linarith) (by linarith) (by linarith)⟩
  · rw [hd2, hb, show twilightDawn tzo e (-18) = strftimeHM (t1 + 60 * tzo) by
      unfold twilightDawn; rw [hr1], hmVal_strftimeHM]
  · rw [hd2, hb, show twilightDawn tzo e (-12) = strftimeHM (t2 + 60 * tzo) by
      unfold twilightDawn; rw [hr2], hmVal_strftimeHM]
  · rw [hd2, hb, show twilightDawn tzo e (-6) = strftimeHM (t3 + 60 * tzo) by
      unfold twilightDawn; rw [hr3], hmVal_strftimeHM]
  · rw [hd2, hb]
    exact hmVal_strftimeHM _
  · rw [hd2, hb]
    exact hmVal_strftimeHM _
  · rw [hd2, hb]
    exact hmVal_strftimeHM _
  · rw [hd2, hb, show twilightDusk tzo e (-6) = strftimeHM (t6 + 60 * tzo) by
      unfold twilightDusk; rw [hs6], hmVal_strftimeHM]
  · rw [hd2, hb, show twilightDusk tzo e (-12) = strftimeHM (t7 + 60 * tzo) by
      unfold twilightDusk; rw [hs7], hmVal_strftimeHM]
  · rw [hd2, hb, show twilightDusk tzo e (-18) = strftimeHM (t8 + 60 * tzo) by
      unfold twilightDusk; rw [hs8], hmVal_strftimeHM]

/-- C4 witness: the amended ordering applied to the fixture oracle with
tzOffset 3, where no local time wraps past midnight. -/
theorem ordering_amended_witness :
    hmVal (buildReport 3 athensE).astronomicalDawn =
      some (hmOfInstant ((141 : ℚ) + 60 * 3)) ∧
    hmVal (buildReport 3 athensE).nauticalDawn =
      some (hmOfInstant ((176 : ℚ) + 60 * 3)) ∧
    hmVal (buildReport 3 athensE).civilDawn =
      some (hmOfInstant ((207 : ℚ) + 60 * 3)) ∧
    hmVal (buildReport 3 athensE).sunrise =
      some (hmOfInstant ((233 : ℚ) + 60 * 3)) ∧
    hmVal (buildReport 3 athensE).solarNoon =
      some (hmOfInstant (((233 : ℚ) + 1019) / 2 + 60 * 3)) ∧
    hmVal (buildReport 3 athensE).sunset =
      some (hmOfInstant ((1019 : ℚ) + 60 * 3)) ∧
    hmVal (buildReport 3 athensE).civilDusk =
      some (hmOfInstant ((1045 : ℚ) + 60 * 3)) ∧
    hmVal (buildReport 3 athensE).nauticalDusk =
      some (hmOfInstant ((1076 : ℚ) + 60 * 3)) ∧
    hmVal (buildReport 3 athensE).astronomicalDusk =
      some (hmOfInstant ((1111 : ℚ) + 60 * 3)) ∧
    hmOfInstant ((141 : ℚ) + 60 * 3) ≤ hmOfInstant ((176 : ℚ) + 60 * 3) ∧
    hmOfInstant ((176 : ℚ) + 60 * 3) ≤ hmOfInstant ((207 : ℚ) + 60 * 3) ∧
    hmOfInstant ((207 : ℚ) + 60 * 3) ≤ hmOfInstant ((233 : ℚ) + 60 * 3) ∧
    hmOfInstant ((233 : ℚ) + 60 * 3) ≤ hmOfInstant (((233 : ℚ) + 1019) / 2 + 60 * 3) ∧
    hmOfInstant (((233 : ℚ) + 1019) / 2 + 60 * 3) ≤ hmOfInstant ((1019 : ℚ) + 60 * 3) ∧
    hmOfInstant ((1019 : ℚ) + 60 * 3) ≤ hmOfInstant ((1045 : ℚ) + 60 * 3) ∧
    hmOfInstant ((1045 : ℚ) + 60 * 3) ≤ hmOfInstant ((1076 : ℚ) + 60 * 3) ∧
    hmOfInstant ((1076 : ℚ) + 60 * 3) ≤ hmOfInstant ((1111 : ℚ) + 60 * 3) :=
  ordering_amended 37.9838096 23.7275388 3 "2025-04-14" athensE _
    (buildReport 3 athensE) 141 176 207 233 1019 1045 1076 1111
    rfl rfl rfl rfl rfl rfl rfl rfl
    (@calc_ok 37.9838096 23.7275388 3 "2025-04-14" athensE (2025, 4, 14) (by decide))
    (by simp)
    (by norm_num) (by norm_num) (by norm_num) (by norm_num)
    (by norm_num) (by norm_num) (by norm_num)
    (by rw [show (141 : ℚ) + 60 * 3 = ((321 : Int) : ℚ) by norm_num, Int.floor_intCast]
        norm_num)
    (by rw [show (1111 : ℚ) + 60 * 3 = ((1291 : Int) : ℚ) by norm_num, Int.floor_intCast]
        norm_num)

/-! ## Claim C5 -/

/-- C5: the SolarNoon field is the sunrise/sunset midpoint shifted by
tzOffset hours and formatted HH:MM when both events are observable, and
the date's 12:00 (minute 720) plus tzOffset otherwise. -/
theorem solar_noon_midpoint (lat lon tzo : ℚ) (dateStr : String) (e : Ephem)
    (res : CalcResult) (d : DayReport)
    (hres : calculate_astronomical_events lat lon dateStr tzo e = .ok res)
    (hd : d ∈ res.data) :
    d.solarNoon = (match riseSetPair e with
      | some (r, s) => strftimeHM ((r + s) / 2 + 60 * tzo)
      | none => strftimeHM (720 + 60 * tzo)) := by
  rw [mem_calc_data hres hd]
  cases hrs : riseSetPair e with
  | none => rw [buildReport_polar tzo hrs]
  | some p =>
    obtain ⟨r, s⟩ := p
    obtain ⟨hr, hs⟩ := riseSetPair_some_inv hrs
    rw [buildReport_found tzo hr hs]

/-- C5 witness: on the fixture oracle the SolarNoon field is the
rendering of the sunrise/sunset midpoint (233 + 1019)/2 shifted by
three hours. -/
theorem solar_noon_midpoint_witness :
    (buildReport 3 athensE).solarNoon = strftimeHM (((233 : ℚ) + 1019) / 2 + 60 * 3) := by
  have h := solar_noon_midpoint 37.9838096 23.7275388 3 "2025-04-14" athensE _
    (buildReport 3 athensE)
    (@calc_ok 37.9838096 23.7275388 3 "2025-04-14" athensE (2025, 4, 14) (by decide))
    (by simp)
  rw [show riseSetPair athensE = some (233, 1019) from rfl] at h
  exact h

/-! ## Claim C6 -/

/-- For a rise/set outcome, any found instant lies strictly after the
given search start; the `ephem` next_rising and next_setting queries
satisfy this for the start their observer date designates. -/
def afterStart (start : ℚ) : RiseSetResult → Prop
  | .found t => start < t
  | _ => True

/-- C6: for each twilight angle the dawn field is computed from the
next-rising query anchored at the start of the day (instant 0) while
the dusk field is computed from the next-setting query anchored at
midday (instant 720, line 86 of calculator.py); with the library
contract that a found crossing lies strictly after the search start,
the reported dusk instants lie strictly after midday and therefore
cannot be the morning crossing of the same threshold. -/
theorem twilight_dusk_noon_anchor (lat lon tzo : ℚ) (dateStr : String) (e : Ephem)
    (res : CalcResult) (d : DayReport) (u6 u12 u18 v6 v12 v18 : ℚ)
    (hres : calculate_astronomical_events lat lon dateStr tzo e = .ok res)
    (hd : d ∈ res.data)
    (hr6 : e.nextRising (-6) 0 true = .found u6)
    (hr12 : e.nextRising (-12) 0 true = .found u12)
    (hr18 : e.nextRising (-18) 0 true = .found u18)
    (hs6 : e.nextSetting (-6) 720 true = .found v6)
    (hs12 : e.nextSetting (-12) 720 true = .found v12)
    (hs18 : e.nextSetting (-18) 720 true = .found v18)
    (hafter6 : afterStart 720 (e.nextSetting (-6) 720 true))
    (hafter12 : afterStart 720 (e.nextSetting (-12) 720 true))
    (hafter18 : afterStart 720 (e.nextSetting (-18) 720 true)) :
    d.civilDawn = strftimeHM (u6 + 60 * tzo) ∧
    d.nauticalDawn = strftimeHM (u12 + 60 * tzo) ∧
    d.astronomicalDawn = strftimeHM (u18 + 60 * tzo) ∧
    d.civilDusk = strftimeHM (v6 + 60 * tzo) ∧
    d.nauticalDusk = strftimeHM (v12 + 60 * tzo) ∧
    d.astronomicalDusk = strftimeHM (v18 + 60 * tzo) ∧
    720 < v6 ∧ 720 < v12 ∧ 720 < v18 := by
  rw [mem_calc_data hres hd]
  have e6 : twilightDawn tzo e (-6) = strftimeHM (u6 + 60 * tzo) := by
    unfold twilightDawn
    rw [hr6]
  have e12 : twilightDawn tzo e (-12) = strftimeHM (u12 + 60 * tzo) := by
    unfold twilightDawn
    rw [hr12]
  have e18 : twilightDawn tzo e (-18) = strftimeHM (u18 + 60 * tzo) := by
    unfold twilightDawn
    rw [hr18]
  have f6 : twilightDusk tzo e (-6) = strftimeHM (v6 + 60 * tzo) := by
    unfold twilightDusk
    rw [hs6]
  have f12 : twilightDusk tzo e (-12) = strftimeHM (v12 + 60 * tzo) := by
    unfold twilightDusk
    rw [hs12]
  have f18 : twilightDusk tzo e (-18) = strftimeHM (v18 + 60 * tzo) := by
    unfold twilightDusk
    rw [hs18]
  rw [hs6] at hafter6
  rw [hs12] at hafter12
  rw [hs18] at hafter18
  cases hrs : riseSetPair e with
  | none =>
    rw [buildReport_polar tzo hrs]
    exact ⟨e6, e12, e18, f6, f12, f18, hafter6, hafter12, hafter18⟩
  | some p =>
    obtain ⟨r, s⟩ := p
    obtain ⟨hr, hs⟩ := riseSetPair_some_inv hrs
    rw [buildReport_found tzo hr hs]
    exact ⟨e6, e12, e18, f6, f12, f18, hafter6, hafter12, hafter18⟩

/-- C6 witness: the anchoring applied to the fixture oracle (dawns 207,
176, 141 from the midnight search, dusks 1045, 1076, 1111 from the
midday search, all dusks after minute 720). -/
theorem twilight_dusk_noon_anchor_witness :
    (buildReport 3 athensE).civilDawn = strftimeHM ((207 : ℚ) + 60 * 3) ∧
    (buildReport 3 athensE).nauticalDawn = strftimeHM ((176 : ℚ) + 60 * 3) ∧
    (buildReport 3 athensE).astronomicalDawn = strftimeHM ((141 : ℚ) + 60 * 3) ∧
    (buildReport 3 athensE).civilDusk = strftimeHM ((1045 : ℚ) + 60 * 3) ∧
    (buildReport 3 athensE).nauticalDusk = strftimeHM ((1076 : ℚ) + 60 * 3) ∧
    (buildReport 3 athensE).astronomicalDusk = strftimeHM ((1111 : ℚ) + 60 * 3) ∧
    (720 : ℚ) < 1045 ∧ (720 : ℚ) < 1076 ∧ (720 : ℚ) < 1111 :=
  twilight_dusk_noon_anchor 37.9838096 23.7275388 3 "2025-04-14" athensE _
    (buildReport 3 athensE) 207 176 141 1045 1076 1111
    (@calc_ok 37.9838096 23.7275388 3 "2025-04-14" athensE (2025, 4, 14) (by decide))
    (by simp) rfl rfl rfl rfl rfl rfl
    (by show (720 : ℚ) < 1045; norm_num)
    (by show (720 : ℚ) < 1076; norm_num)
    (by show (720 : ℚ) < 1111; norm_num)

/-! ## Claim C7 -/

/-- C7: the ElevationAngle field is the string of the sun's altitude at
instant 0 (the local-date midnight, UTC), converted to degrees and
truncated toward zero, exactly as `int(math.degrees(sun.alt))` does. -/
theorem elevation_truncated_midnight (lat lon tzo : ℚ) (dateStr : String) (e : Ephem)
    (res : CalcResult) (d : DayReport)
    (hres : calculate_astronomical_events lat lon dateStr tzo e = .ok res)
    (hd : d ∈ res.data) :
    d.elevationAngle = toString (pyTrunc (degreesQ (e.alt 0))) := by
  rw [mem_calc_data hres hd]
  cases hrs : riseSetPair e with
  | none =>
    rw [buildReport_polar tzo hrs]
    rfl
  | some p =>
    obtain ⟨r, s⟩ := p
    obtain ⟨hr, hs⟩ := riseSetPair_some_inv hrs
    rw [buildReport_found tzo hr hs]
    rfl

/-- C7 witness: the elevation equation applied to the fixture oracle. -/
theorem elevation_truncated_midnight_witness :
    (buildReport 3 athensE).elevationAngle =
      toString (pyTrunc (degreesQ (athensE.alt 0))) :=
  elevation_truncated_midnight 37.9838096 23.7275388 3 "2025-04-14" athensE _
    (buildReport 3 athensE)
    (@calc_ok 37.9838096 23.7275388 3 "2025-04-14" athensE (2025, 4, 14) (by decide))
    (by simp)

/-! ## Claim C8 -/

/-- Whether a call produced a report rather than an error. -/
def calcOk : Except CalcError CalcResult → Bool
  | .ok _ => true
  | .error _ => false

/-- C8: a call with a well-formed date string always returns a report —
the polar exceptions are caught locally (lines 24-31 and 76-92) and no
other exception is raised — and when the 0-degree pair is not
observable the sunrise and sunset fields carry the "N/A" sentinel and
the lengths the boundary values. -/
theorem no_exception_wellformed (lat lon tzo : ℚ) (dateStr : String) (e : Ephem)
    (ymd : Nat × Nat × Nat) (hdate : parseDate dateStr = some ymd) :
    calcOk (calculate_astronomical_events lat lon dateStr tzo e) = true ∧
    (riseSetPair e = none →
      (calculate_astronomical_events lat lon dateStr tzo e).map
          (fun c => c.data.map fun d => (d.sunrise, d.sunset, d.daylength, d.nightLength)) =
        .ok [("N/A", "N/A", "24:00", "00:00")]) := by
  constructor
  · rw [calc_ok hdate]
    rfl
  · intro hpolar
    rw [calc_ok hdate]
    simp only [Except.map, List.map_cons, List.map_nil]
    rw [buildReport_polar tzo hpolar]

/-- C8 witness: applied to the polar-day oracle on 2025-06-21. -/
theorem no_exception_wellformed_witness :
    calcOk (calculate_astronomical_events 78 0 "2025-06-21" 0 polarDayE) = true ∧
    (calculate_astronomical_events 78 0 "2025-06-21" 0 polarDayE).map
        (fun c => c.data.map fun d => (d.sunrise, d.sunset, d.daylength, d.nightLength)) =
      .ok [("N/A", "N/A", "24:00", "00:00")] :=
  ⟨(no_exception_wellformed 78 0 0 "2025-06-21" polarDayE (2025, 6, 21) (by decide)).1,
   (no_exception_wellformed 78 0 0 "2025-06-21" polarDayE (2025, 6, 21) (by decide)).2 rfl⟩

/-! ## Claim C9 -/

/-- Oracle for a polar-transition day: the sun rises (minute 120) but
then stays up beyond the search window, so the 0-degree next-setting
query raises `AlwaysUpError` even though next-rising succeeded. -/
def polarOnsetE : Ephem :=
  { nextRising := fun _ _ _ => .found 120
    nextSetting := fun _ _ _ => .alwaysUp
    alt := fun _ => -1/100 }

/-- C9: the sunrise field is "N/A" exactly when the sunset field is,
and the four UV fields are "N/A" in exactly the same case; moreover a
polar outcome of the next-setting query alone already forces sunrise to
"N/A", because the except clause of lines 28-31 clears both variables. -/
theorem sunrise_sunset_na_iff (lat lon tzo : ℚ) (dateStr : String) (e : Ephem)
    (res : CalcResult) (d : DayReport)
    (hres : calculate_astronomical_events lat lon dateStr tzo e = .ok res)
    (hd : d ∈ res.data) :
    (d.sunrise = "N/A" ↔ d.sunset = "N/A") ∧
    (d.uvaOn = "N/A" ↔ d.sunrise = "N/A") ∧
    (d.uvaOff = "N/A" ↔ d.sunrise = "N/A") ∧
    (d.uvbOn = "N/A" ↔ d.sunrise = "N/A") ∧
    (d.uvbOff = "N/A" ↔ d.sunrise = "N/A") ∧
    ((e.nextSetting 0 0 false).isPolar = true → d.sunrise = "N/A") := by
  rw [mem_calc_data hres hd]
  cases hrs : riseSetPair e with
  | none =>
    rw [buildReport_polar tzo hrs]
    refine ⟨by simp, by simp, by simp, by simp, by simp, fun _ => rfl⟩
  | some p =>
    obtain ⟨r, s⟩ := p
    obtain ⟨hr, hs⟩ := riseSetPair_some_inv hrs
    rw [buildReport_found tzo hr hs]
    refine ⟨?_, ?_, ?_, ?_, ?_, ?_⟩
    · simp [strftimeHM_ne_NA]
    · simp [strftimeHM_ne_NA]
    · simp [strftimeHM_ne_NA]
    · simp [strftimeHM_ne_NA]
    · simp [strftimeHM_ne_NA]
    · intro hpol
      rw [hs] at hpol
      exact absurd hpol (by simp [RiseSetResult.isPolar])

/-- C9 witness: applied to the polar-transition oracle, where
next-rising succeeded but next-setting raised; both event fields and
all UV fields are "N/A". -/
theorem sunrise_sunset_na_iff_witness :
    ((buildReport 0 polarOnsetE).sunrise = "N/A" ↔
      (buildReport 0 polarOnsetE).sunset = "N/A") ∧
    ((buildReport 0 polarOnsetE).uvaOn = "N/A" ↔
      (buildReport 0 polarOnsetE).sunrise = "N/A") ∧
    ((buildReport 0 polarOnsetE).uvaOff = "N/A" ↔
      (buildReport 0 polarOnsetE).sunrise = "N/A") ∧
    ((buildReport 0 polarOnsetE).uvbOn = "N/A" ↔
      (buildReport 0 polarOnsetE).sunrise = "N/A") ∧
    ((buildReport 0 polarOnsetE).uvbOff = "N/A" ↔
      (buildReport 0 polarOnsetE).sunrise = "N/A") ∧
    (buildReport 0 polarOnsetE).sunrise = "N/A" := by
  have h := sunrise_sunset_na_iff 88 0 0 "2025-03-20" polarOnsetE _
    (buildReport 0 polarOnsetE)
    (@calc_ok 88 0 0 "2025-03-20" polarOnsetE (2025, 3, 20) (by decide))
    (by simp)
  exact ⟨h.1, h.2.1, h.2.2.1, h.2.2.2.1, h.2.2.2.2.1, h.2.2.2.2.2 rfl⟩

/-! ## Claim C10 -/

/-- The four report fields that do not display a clock time: day
length, night length, sleep duration, elevation angle. -/
def metaFields (d : DayReport) : String × String × String × String :=
  (d.daylength, d.nightLength, d.sleepDuration, d.elevationAngle)

theorem metaFields_buildReport (e : Ephem) (tzo1 tzo2 : ℚ) :
    metaFields (buildReport tzo1 e) = metaFields (buildReport tzo2 e) := by
  cases hrs : riseSetPair e with
  | none =>
    rw [buildReport_polar tzo1 hrs, buildReport_polar tzo2 hrs]
    rfl
  | some p =>
    obtain ⟨r, s⟩ := p
    obtain ⟨hr, hs⟩ := riseSetPair_some_inv hrs
    rw [buildReport_found tzo1 hr hs, buildReport_found tzo2 hr hs]
    rfl

/-- C10: for fixed latitude, longitude and date (hence a fixed
ephemeris oracle, which the time-zone offset never reaches), the
daylength, nightLength, sleepDuration and ElevationAngle fields are
identical for every tzOffset: the offset only shifts the displayed
clock times. -/
theorem tz_invariant_fields (lat lon : ℚ) (dateStr : String) (e : Ephem)
    (tzo1 tzo2 : ℚ) :
    (calculate_astronomical_events lat lon dateStr tzo1 e).map
        (fun c => c.data.map metaFields) =
      (calculate_astronomical_events lat lon dateStr tzo2 e).map
        (fun c => c.data.map metaFields) := by
  cases hp : parseDate dateStr with
  | none =>
    unfold calculate_astronomical_events
    rw [hp]
  | some ymd =>
    rw [@calc_ok lat lon tzo1 dateStr e ymd hp, @calc_ok lat lon tzo2 dateStr e ymd hp]
    simp only [Except.map, List.map_cons, List.map_nil]
    rw [metaFields_buildReport e tzo1 tzo2]

/-- C3 witness: the amended sum property applied to the fixture oracle
(sunrise minute 233, sunset minute 1019, day length 13.1 hours). -/
theorem length_sum_amended_witness :
    ∃ a b : Nat, hmVal (buildReport 3 athensE).daylength = some a ∧
      hmVal (buildReport 3 athensE).nightLength = some b ∧
      1439 ≤ a + b ∧ a + b ≤ 1441 :=
  length_sum_amended 37.9838096 23.7275388 3 "2025-04-14" athensE _
    (@calc_ok 37.9838096 23.7275388 3 "2025-04-14" athensE (2025, 4, 14) (by decide))
    (by
      intro r s h1 h2
      have h1' : RiseSetResult.found (233 : ℚ) = .found r := h1
      have h2' : RiseSetResult.found (1019 : ℚ) = .found s := h2
      injection h1' with h3
      injection h2' with h4
      rw [← h3, ← h4]
      norm_num)
    (buildReport 3 athensE) (by simp)
